import Mathlib

/-!
Shallow embedding of the herbivore-simulation core of the modular megafauna
model, together with theorems settling the specification claims.

Conventions:
* C++ `double` values are embedded as `ℚ` (exact arithmetic; the claims under
  scrutiny are about control flow and exact algebraic relations, not about
  floating-point rounding).
* Fallible C++ code (`throw std::invalid_argument` / `std::logic_error`) is
  embedded as `Except FaunaError α`; an exception thrown before any member
  assignment leaves the object unchanged, which the `Except` embedding models
  by simply not producing a new state.
* A C++ member function mutating `*this` is embedded as a function from the
  old state to the new state.
-/

namespace Fauna

/-- Error kinds thrown by the embedded functions: `std::invalid_argument`,
`std::logic_error`, and a failed C `assert` (which aborts the program). -/
inductive FaunaError where
  | invalidArgument : String → FaunaError
  | logicError : String → FaunaError
  | assertionFailure : FaunaError
  deriving DecidableEq, Repr

/-- The closed forage-type enumeration (`Fauna::ForageType`): grass and
inedible forage. -/
inductive ForageType where
  | grass
  | inedible
  deriving DecidableEq, Repr

/-- `Fauna::Sex` of a herbivore. -/
inductive Sex where
  | male
  | female
  deriving DecidableEq, Repr

/-- `Fauna::DigestionType`: ruminant or hindgut fermenter. -/
inductive DigestionType where
  | ruminant
  | hindgut
  deriving DecidableEq, Repr

/-- A per-forage-type quantity (`Fauna::ForageValues`), embedded as a function
from the closed forage-type enum. -/
def ForageVec : Type := ForageType → ℚ

/-- The all-zero forage vector, `ForageMass(0.0)`. -/
def ForageVec.zero : ForageVec := fun _ => 0

/-- `ForageValues::operator==(double)`: all components equal the scalar.
Used by `HerbivoreBase::eat` as `kg_per_km2 == 0.0`. -/
def ForageVec.allEq (v : ForageVec) (x : ℚ) : Prop := ∀ t, v t = x

instance (v : ForageVec) (x : ℚ) : Decidable (v.allEq x) :=
  decidable_of_iff (v .grass = x ∧ v .inedible = x)
    ⟨fun ⟨hg, hi⟩ t => by cases t <;> assumption, fun h => ⟨h .grass, h .inedible⟩⟩

/-! ## `src/Fauna/net_energy_models.cpp` — default net energy content (C5) -/

/-- `GetNetEnergyContentDefault::ME_COEFFICIENT_GRASS` = 15.0 MJ/kgDM. -/
def ME_COEFFICIENT_GRASS : ℚ := 15

/-- `GetNetEnergyContentDefault::DIGESTION_EFFICIENCY_HINDGUTS` = 0.93. -/
def DIGESTION_EFFICIENCY_HINDGUTS : ℚ := 93 / 100

/-- The constructor-initialised member `digestion_efficiency`:
1.0 for ruminants, `DIGESTION_EFFICIENCY_HINDGUTS` otherwise. -/
def digestionEfficiency (dt : DigestionType) : ℚ :=
  if dt = DigestionType.ruminant then 1 else DIGESTION_EFFICIENCY_HINDGUTS

/-- `GetNetEnergyContentDefault::get_per_forage_type` from
`src/Fauna/net_energy_models.cpp`: first validates digestibility to be in
[0,1], returns 0 for inedible forage, and for grass computes
`ME = digestibility * 15` and `ME * (0.019 * ME + 0.503) * e`. -/
def get_per_forage_type (dt : DigestionType) (forage_type : ForageType)
    (digestibility : ℚ) : Except FaunaError ℚ :=
  if ¬(digestibility ≥ 0 ∧ digestibility ≤ 1) then
    Except.error (FaunaError.invalidArgument "Digestibility out of range")
  else if forage_type = ForageType.inedible then
    Except.ok 0
  else
    let ME : ℚ := digestibility * ME_COEFFICIENT_GRASS
    let e : ℚ := digestionEfficiency dt
    Except.ok (ME * (19 / 1000 * ME + 503 / 1000) * e)

/-! ## `src/Fauna/average.cpp` — weighted average (C8) -/

/-- `Fauna::average` from `src/Fauna/average.cpp`: rejects negative weights and
a zero weight sum, otherwise returns `(a*weight_a + b*weight_b) /
(weight_a + weight_b)`.  The NaN/INFINITY guards of the C++ code are vacuous
over `ℚ`, where every value is finite. -/
def average (a b weight_a weight_b : ℚ) : Except FaunaError ℚ :=
  if weight_a < 0 ∨ weight_b < 0 then
    Except.error (FaunaError.invalidArgument "Weight must be >=0.0")
  else if weight_a + weight_b = 0 then
    Except.error (FaunaError.invalidArgument "Sum of weights is zero.")
  else
    Except.ok ((a * weight_a + b * weight_b) / (weight_a + weight_b))

/-! ## `src/modules/herbiv_herbivore.cpp` — cohort mortality (C3) -/

/-- `HerbivoreCohort::apply_mortality` from `src/modules/herbiv_herbivore.cpp`
(lines 555–565), acting on the density `ind_per_km2`: throws
`std::invalid_argument` for a mortality outside [0,1] (before touching the
density), otherwise sets the density to
`max(0.0, ind_per_km2 + (-mortality * ind_per_km2))`. -/
def HerbivoreCohort.apply_mortality (ind_per_km2 mortality : ℚ) :
    Except FaunaError ℚ :=
  if mortality < 0 ∨ mortality > 1 then
    Except.error (FaunaError.invalidArgument
      "Parameter \x22mortality\x22 out of range.")
  else
    let ind_change : ℚ := -mortality * ind_per_km2
    Except.ok (max 0 (ind_per_km2 + ind_change))

/-! ## `src/Fauna/herbivore_base.cpp` — mortality factor summation (C2) -/

/-- `Fauna::MortalityFactor`: the closed set of selectable mortality factors. -/
inductive MortalityFactor where
  | background
  | lifespan
  | starvationIlliusOConnor2000
  | starvationThreshold
  deriving DecidableEq, Repr

/-- The set `hft.mortality_factors` of selected mortality factors, embedded as
one flag per member of the closed enum (a `std::set<MortalityFactor>`). -/
structure MortalitySelection where
  background : Bool
  lifespan : Bool
  starvationIlliusOConnor2000 : Bool
  starvationThreshold : Bool
  deriving DecidableEq, Repr

/-- Membership test in the selected-factor set. -/
def MortalitySelection.mem (s : MortalitySelection) : MortalityFactor → Bool
  | MortalityFactor.background => s.background
  | MortalityFactor.lifespan => s.lifespan
  | MortalityFactor.starvationIlliusOConnor2000 => s.starvationIlliusOConnor2000
  | MortalityFactor.starvationThreshold => s.starvationThreshold

/-- The selected factors as a list, in the `std::set` iteration order
(sorted by the enum declaration order). -/
def MortalitySelection.toList (s : MortalitySelection) : List MortalityFactor :=
  (if s.background then [MortalityFactor.background] else []) ++
  (if s.lifespan then [MortalityFactor.lifespan] else []) ++
  (if s.starvationIlliusOConnor2000 then
    [MortalityFactor.starvationIlliusOConnor2000] else []) ++
  (if s.starvationThreshold then [MortalityFactor.starvationThreshold] else [])

/-- `HerbivoreBase::apply_mortality_factors_today` from
`src/Fauna/herbivore_base.cpp` (lines 113–185): iterates over the selected
mortality factors, accumulates `mortality_sum += mortality` for each, where
each factor's daily rate comes from its function object
(`GetBackgroundMortality`, `GetSimpleLifespanMortality`,
`GetStarvationIlliusOConnor2000`, `GetStarvationMortalityThreshold`; these live
in `mortality.h`, which is not part of the sources, so the per-factor rate is
abstracted into the function argument `rate`), then clamps the sum with
`std::min(1.0, mortality_sum)` and passes the result to the pure virtual
`apply_mortality`.  The returned value is exactly that argument. -/
def apply_mortality_factors_today (s : MortalitySelection)
    (rate : MortalityFactor → ℚ) : ℚ :=
  let mortality_sum : ℚ :=
    s.toList.foldl (fun acc f => acc + rate f) 0
  min 1 mortality_sum

/-! ## `src/Fauna/herbivore_base.cpp` — offspring proportion (C1) -/

/-- `Fauna::ReproductionModel`: the closed set of reproduction models. -/
inductive ReproductionModel where
  | illiusOConnor2000
  | constMax
  | linear
  | noReproduction
  deriving DecidableEq, Repr

/-- `HerbivoreBase::get_todays_offspring_proportion` from
`src/Fauna/herbivore_base.cpp` (lines 424–461): returns 0.0 immediately if the
herbivore is male or `get_age_years() < hft.maturity_age_sex`; otherwise it
dispatches on `hft.reproduction_model`.  The concrete model objects
(`ReprIlliusOconnor2000`, `ReproductionConstMax`, `ReproductionLinear`, from
`reproduction_models.h`, which is not part of the sources) are abstracted into
the function argument `modelValue`, giving the value each model object would
return for today; the `RM_NONE` branch returns 0.0 in the source itself. -/
def get_todays_offspring_proportion (sex : Sex) (age_years maturity_age_sex : ℚ)
    (model : ReproductionModel) (modelValue : ReproductionModel → ℚ) : ℚ :=
  if sex = Sex.male ∨ age_years < maturity_age_sex then 0
  else
    match model with
    | ReproductionModel.illiusOConnor2000 =>
        modelValue ReproductionModel.illiusOConnor2000
    | ReproductionModel.constMax => modelValue ReproductionModel.constMax
    | ReproductionModel.linear => modelValue ReproductionModel.linear
    | ReproductionModel.noReproduction => 0

/-! ## `src/Fauna/herbivore_base.cpp` — the entry of `eat` (C4) -/

/-- The entry checks of `HerbivoreBase::eat` from
`src/Fauna/herbivore_base.cpp` (lines 187–198):
`if (get_ind_per_km2() == 0.0 && kg_per_km2 == 0.0) throw std::logic_error;`
followed by `assert(get_ind_per_km2() != 0.0);` right before the division
`kg_per_km2 / get_ind_per_km2()`.  A failed `assert` aborts the program, which
is embedded as `FaunaError.assertionFailure`.  When both checks pass, the
function proceeds to feed the herbivore (embedded here as `Except.ok ()`,
since the claim under scrutiny only concerns the entry checks). -/
def eat_entry (ind_per_km2 : ℚ) (kg_per_km2 : ForageVec) :
    Except FaunaError Unit :=
  if ind_per_km2 = 0 ∧ kg_per_km2.allEq 0 then
    Except.error (FaunaError.logicError
      "This herbivore has no individuals and cannot be fed.")
  else if ¬(ind_per_km2 ≠ 0) then
    Except.error FaunaError.assertionFailure
  else
    Except.ok ()

/-! ## Forage distribution (C6)

`DistributeForageEqually::operator()` in `src/framework/herbiv_framework.cpp`
(lines 169–191) is an empty sketch (its loop body is a `TODO` comment and it
never writes to `forage_distribution`).  The real algorithm is therefore
modelled from the specification. -/

/-- Modelled from the spec: the `Equally` forage-distribution algorithm of
§4.5, which is missing from the sources (`DistributeForageEqually` in
`src/framework/herbiv_framework.cpp` is a no-op sketch).  For one forage type:
with `D = Σ demands` and `A` the available mass, allocate each herbivore its
full demand if `D ≤ A`, otherwise scale every demand by `A / D`. -/
def distribute_forage_equally (available : ℚ) (demands : List ℚ) : List ℚ :=
  let D : ℚ := demands.sum
  if D ≤ available then demands
  else demands.map (fun d => d * (available / D))

/-! ## `src/Fauna/world.cpp` — establishment cadence (C7) -/

/-- One simulation unit, reduced to the state that the establishment policy of
`World::simulate_day` reads and writes.  `initial_establishment_done` embeds
`SimulationUnit::is_initial_establishment_done()`; the `SimulationUnit` class
itself is not part of the sources. -/
structure SimUnit where
  initial_establishment_done : Bool
  deriving DecidableEq, Repr

/-- The state of `Fauna::World` that drives the establishment policy: the
member counter `days_since_last_establishment` (initialised in the `World`
constructor to `herbivore_establish_interval`) and the simulation units in
`sim_units`. -/
structure WorldState where
  days_since_last_establishment : ℤ
  sim_units : List SimUnit
  deriving DecidableEq, Repr

/-- The body of the `for (auto sim_unit : sim_units)` loop in
`World::simulate_day` (`src/Fauna/world.cpp` lines 51–78) for one simulation
unit: sets `establish_if_needed` when the unit has no initial establishment
yet; if `days_since_last_establishment == herbivore_establish_interval` and
the interval is positive, forces `establish_if_needed` and resets the counter;
then increments the counter; finally runs `SimulateDay` with the flag.
Modelled from the spec (§4.7) for the part of `SimulateDay` that is not in the
sources: when the establishment flag is set, establishment is performed and
the unit's initial-establishment mark is set.  Returns the
`establish_if_needed` flag, the updated counter and the updated unit. -/
def simulate_day_unit_step (interval : ℤ) (counter : ℤ) (u : SimUnit) :
    Bool × ℤ × SimUnit :=
  let establish0 : Bool := ! u.initial_establishment_done
  let p : Bool × ℤ :=
    if counter = interval ∧ interval > 0 then (true, 0) else (establish0, counter)
  let establish_if_needed : Bool := p.1
  let counter1 : ℤ := p.2 + 1
  let u1 : SimUnit :=
    if establish_if_needed then { initial_establishment_done := true } else u
  (establish_if_needed, counter1, u1)

/-- `World::simulate_day` (`src/Fauna/world.cpp` lines 47–79), restricted to
the establishment policy: folds `simulate_day_unit_step` over all simulation
units in order, threading the shared counter through the loop exactly as the
source does.  Returns the new world state together with the list of
`establish_if_needed` flags, one per unit in iteration order. -/
def World.simulate_day_establishment (interval : ℤ) (w : WorldState) :
    WorldState × List Bool :=
  let step := fun (acc : ℤ × List SimUnit × List Bool) (u : SimUnit) =>
    let r := simulate_day_unit_step interval acc.1 u
    (r.2.1, acc.2.1 ++ [r.2.2], acc.2.2 ++ [r.1])
  let res := w.sim_units.foldl step (w.days_since_last_establishment, [], [])
  ({ days_since_last_establishment := res.1, sim_units := res.2.1 }, res.2.2)

/-! ## `src/modules/herbiv_herbivore.cpp` — cohort merging (C9) -/

/-- Modelled from the spec: the state of `Fauna::FatmassEnergyBudget`
(§4.1; `herbiv_energetics.h` is not part of the sources) that its `merge`
combines as a density-weighted mean: fat mass, maximum fat mass and pending
energy needs. -/
structure EnergyBudget where
  fat_mass : ℚ
  max_fat_mass : ℚ
  energy_needs : ℚ
  deriving DecidableEq, Repr

/-- Modelled from the spec: `FatmassEnergyBudget::merge(other, weight_self,
weight_other)` (§4.1), the density-weighted mean of all state variables,
computed with `Fauna::average`. -/
def EnergyBudget.merge (b other : EnergyBudget) (weight_self weight_other : ℚ) :
    Except FaunaError EnergyBudget := do
  let f ← average b.fat_mass other.fat_mass weight_self weight_other
  let m ← average b.max_fat_mass other.max_fat_mass weight_self weight_other
  let e ← average b.energy_needs other.energy_needs weight_self weight_other
  Except.ok { fat_mass := f, max_fat_mass := m, energy_needs := e }

/-- The state of a `Fauna::HerbivoreCohort` read and written by `merge`:
age, sex, an HFT identity token (cohorts share their HFT by pointer), the
individual density and the energy budget. -/
structure Cohort where
  age_days : ℤ
  sex : Sex
  hft : ℕ
  ind_per_km2 : ℚ
  energy_budget : EnergyBudget
  deriving DecidableEq, Repr

/-- `HerbivoreCohort::merge` from `src/modules/herbiv_herbivore.cpp`
(lines 567–588): throws `std::invalid_argument` when the other cohort differs
in age (`is_same_age`), sex or HFT — in that order, before any mutation;
otherwise merges the energy budgets weighted by the two current densities,
then adds the other density onto this cohort and zeroes the other cohort's
density.  Returns the updated pair `(this, other)`. -/
def HerbivoreCohort.merge (c other : Cohort) :
    Except FaunaError (Cohort × Cohort) :=
  if c.age_days ≠ other.age_days then
    Except.error (FaunaError.invalidArgument
      "The other cohort is not the same age.")
  else if c.sex ≠ other.sex then
    Except.error (FaunaError.invalidArgument
      "The other cohort is not the same sex.")
  else if c.hft ≠ other.hft then
    Except.error (FaunaError.invalidArgument
      "The other cohort is not the same HFT.")
  else do
    let b ← EnergyBudget.merge c.energy_budget other.energy_budget
      c.ind_per_km2 other.ind_per_km2
    Except.ok
      ({ c with energy_budget := b,
                ind_per_km2 := c.ind_per_km2 + other.ind_per_km2 },
       { other with ind_per_km2 := 0 })

/-! ## `src/Fauna/herbivore_base.cpp` — forage demands of a dead herbivore
(C10) -/

/-- The herbivore state read and written by
`HerbivoreBase::get_forage_demands`: the `is_dead()` predicate of the derived
class (abstracted to a flag, since the derived-class headers are not part of
the sources), the current day, the density, and the per-day memo of the
`GetForageDemands` helper (`get_forage_demands.h` is not part of the sources;
modelled from the spec §4.3/§9 as a per-day memo recording the day it was
initialised for). -/
structure ForageDemandState where
  dead : Bool
  today : ℤ
  ind_per_km2 : ℚ
  memo_day : Option ℤ
  deriving DecidableEq, Repr

/-- `HerbivoreBase::get_forage_demands` from `src/Fauna/herbivore_base.cpp`
(lines 284–315): if `is_dead()` returns the zero forage mass at once, touching
nothing; otherwise initialises the `GetForageDemands` helper for today when
`is_day_initialized(get_today())` is false, computes the per-individual demand
(abstracted into the argument `demand_per_ind`, the value of
`(*get_forage_demands_per_ind)(total_energy_demands)`, whose internals are not
part of the sources) and scales it by `get_ind_per_km2()`.  Returns the
demanded mass together with the updated herbivore state. -/
def get_forage_demands (demand_per_ind : ForageVec) (h : ForageDemandState) :
    ForageVec × ForageDemandState :=
  if h.dead then (ForageVec.zero, h)
  else
    let h1 : ForageDemandState :=
      if h.memo_day = some h.today then h else { h with memo_day := some h.today }
    (fun t => demand_per_ind t * h1.ind_per_km2, h1)

/-! ## Helper lemmas -/

/-- Folding addition of mapped values equals the initial value plus the sum of
the mapped list. -/
theorem foldl_add_eq_sum (rate : MortalityFactor → ℚ)
    (l : List MortalityFactor) (init : ℚ) :
    l.foldl (fun acc f => acc + rate f) init = init + (l.map rate).sum := by
  induction l generalizing init with
  | nil => simp
  | cons x xs ih => simp [List.foldl, ih]; ring

/-- Summing a list after multiplying each element by a constant equals the sum
multiplied by that constant. -/
theorem sum_map_mul_const (l : List ℚ) (c : ℚ) :
    (l.map (fun d => d * c)).sum = l.sum * c := by
  induction l with
  | nil => simp
  | cons x xs ih => simp [ih]; ring

/-! ## Claim theorems -/

/-- C1: `HerbivoreBase::get_todays_offspring_proportion` returns 0 whenever
the herbivore is male or its age in years is strictly below the HFT's
`maturity_age_sex`, and a strictly positive offspring proportion is only ever
returned for a female whose age is at least `maturity_age_sex` — for every
reproduction model and every value the model object might produce. -/
theorem offspring_proportion_only_mature_females (sex : Sex)
    (age_years maturity_age_sex : ℚ) (model : ReproductionModel)
    (modelValue : ReproductionModel → ℚ) :
    ((sex = Sex.male ∨ age_years < maturity_age_sex) →
      get_todays_offspring_proportion sex age_years maturity_age_sex model
        modelValue = 0) ∧
    (0 < get_todays_offspring_proportion sex age_years maturity_age_sex model
        modelValue →
      sex = Sex.female ∧ maturity_age_sex ≤ age_years) := by
  have hzero : (sex = Sex.male ∨ age_years < maturity_age_sex) →
      get_todays_offspring_proportion sex age_years maturity_age_sex model
        modelValue = 0 := by
    intro h
    simp [get_todays_offspring_proportion, h]
  refine ⟨hzero, ?_⟩
  intro hpos
  by_cases h : sex = Sex.male ∨ age_years < maturity_age_sex
  · rw [hzero h] at hpos
    exact absurd hpos (lt_irrefl 0)
  · push_neg at h
    refine ⟨?_, h.2⟩
    cases sex with
    | male => exact absurd rfl h.1
    | female => rfl

/-- Witness for C1 at concrete inputs: a male herbivore yields proportion 0,
and a positive proportion at a concrete input forces female sex and
sufficient age. -/
theorem offspring_proportion_only_mature_females_witness :
    get_todays_offspring_proportion Sex.male 0 5 ReproductionModel.constMax
      (fun _ => 7) = 0 ∧
    (Sex.female = Sex.female ∧ (3 : ℚ) ≤ 5) := by
  constructor
  · exact (offspring_proportion_only_mature_females Sex.male 0 5
      ReproductionModel.constMax (fun _ => 7)).1 (Or.inl rfl)
  · exact (offspring_proportion_only_mature_females Sex.female 5 3
      ReproductionModel.constMax (fun _ => 7)).2 (by decide)

/-- C2: the total mortality passed on to `apply_mortality` by
`apply_mortality_factors_today` equals the sum of the rates of all selected
mortality factors clamped from above to 1.0 — both as a sum over the iterated
selection list and as the explicit per-factor sum — and in particular it never
exceeds 1.0, for any set of selected factors and any rates. -/
theorem apply_mortality_factors_today_sum_clamped (s : MortalitySelection)
    (rate : MortalityFactor → ℚ) :
    apply_mortality_factors_today s rate = min 1 ((s.toList.map rate).sum) ∧
    apply_mortality_factors_today s rate =
      min 1 ((if s.background then rate MortalityFactor.background else 0) +
        (if s.lifespan then rate MortalityFactor.lifespan else 0) +
        (if s.starvationIlliusOConnor2000 then
          rate MortalityFactor.starvationIlliusOConnor2000 else 0) +
        (if s.starvationThreshold then
          rate MortalityFactor.starvationThreshold else 0)) ∧
    apply_mortality_factors_today s rate ≤ 1 := by
  have hfold : apply_mortality_factors_today s rate =
      min 1 ((s.toList.map rate).sum) := by
    rw [apply_mortality_factors_today, foldl_add_eq_sum, zero_add]
  refine ⟨hfold, ?_, ?_⟩
  · rw [hfold]
    rcases s with ⟨b1, b2, b3, b4⟩
    cases b1 <;> cases b2 <;> cases b3 <;> cases b4 <;>
      simp [MortalitySelection.toList] <;> ring_nf
  · rw [hfold]
    exact min_le_left 1 _

/-- C3: `HerbivoreCohort::apply_mortality` with a mortality rate in [0,1] and
a non-negative density sets the density to `max(0, d − m·d) = (1−m)·d ≥ 0`;
a mortality rate outside [0,1] raises `std::invalid_argument` before the
density is touched (the embedding returns no new density in that case, which
models the unchanged object). -/
theorem cohort_apply_mortality_clamps (d m : ℚ) :
    (0 ≤ d → 0 ≤ m → m ≤ 1 →
      HerbivoreCohort.apply_mortality d m = Except.ok (max 0 (d - m * d)) ∧
      max 0 (d - m * d) = (1 - m) * d ∧ 0 ≤ (1 - m) * d) ∧
    ((m < 0 ∨ m > 1) → HerbivoreCohort.apply_mortality d m =
      Except.error (FaunaError.invalidArgument
        "Parameter \x22mortality\x22 out of range.")) := by
  constructor
  · intro hd hm0 hm1
    have hcond : ¬(m < 0 ∨ m > 1) := by
      push_neg
      exact ⟨hm0, hm1⟩
    have hval : 0 ≤ (1 - m) * d := mul_nonneg (by linarith) hd
    have hmax : max 0 (d - m * d) = (1 - m) * d := by
      rw [max_eq_right]
      · ring
      · calc (0 : ℚ) ≤ (1 - m) * d := hval
          _ = d - m * d := by ring
    refine ⟨?_, hmax, hval⟩
    rw [HerbivoreCohort.apply_mortality, if_neg hcond]
    ring_nf
  · intro h
    rw [HerbivoreCohort.apply_mortality, if_pos h]

/-- Witness for C3 at concrete inputs: density 4 under mortality 1/2 becomes
2, and mortality 2 is rejected. -/
theorem cohort_apply_mortality_clamps_witness :
    (HerbivoreCohort.apply_mortality 4 (1/2) = Except.ok (max 0 (4 - 1/2 * 4)) ∧
      max (0 : ℚ) (4 - 1/2 * 4) = (1 - 1/2) * 4 ∧ (0 : ℚ) ≤ (1 - 1/2) * 4) ∧
    HerbivoreCohort.apply_mortality 4 2 =
      Except.error (FaunaError.invalidArgument
        "Parameter \x22mortality\x22 out of range.") := by
  constructor
  · exact (cohort_apply_mortality_clamps 4 (1/2)).1 (by norm_num) (by norm_num)
      (by norm_num)
  · exact (cohort_apply_mortality_clamps 4 2).2 (by norm_num)

/-- C5: the default net energy content for a digestibility d in [0,1] equals
`ME * (0.019 * ME + 0.503) * e` for grass (with `ME = d * 15` and `e = 1` for
ruminants, `0.93` for hindguts), is 0 for inedible forage, and raises
`std::invalid_argument` for any digestibility outside [0,1]. -/
theorem net_energy_content_default_formula (dt : DigestionType) (d : ℚ) :
    (0 ≤ d → d ≤ 1 →
      get_per_forage_type dt ForageType.grass d =
        Except.ok ((d * 15) * (19 / 1000 * (d * 15) + 503 / 1000) *
          (if dt = DigestionType.ruminant then 1 else 93 / 100)) ∧
      get_per_forage_type dt ForageType.inedible d = Except.ok 0) ∧
    (¬(0 ≤ d ∧ d ≤ 1) → ∀ ft, get_per_forage_type dt ft d =
      Except.error (FaunaError.invalidArgument
        "Digestibility out of range")) := by
  constructor
  · intro h0 h1
    have hcond : ¬¬(d ≥ 0 ∧ d ≤ 1) := by
      push_neg
      exact ⟨h0, h1⟩
    constructor
    · rw [get_per_forage_type, if_neg hcond, if_neg (by simp)]
      rfl
    · rw [get_per_forage_type, if_neg hcond, if_pos rfl]
  · intro h ft
    have hcond : ¬(d ≥ 0 ∧ d ≤ 1) := by
      intro hc
      exact h ⟨hc.1, hc.2⟩
    rw [get_per_forage_type, if_pos hcond]

/-- Witness for C5 at concrete inputs: digestibility 1/2 for a ruminant on
grass and a hindgut on inedible forage, and the rejected digestibility 2. -/
theorem net_energy_content_default_formula_witness :
    get_per_forage_type DigestionType.ruminant ForageType.grass (1/2) =
      Except.ok ((1/2 * 15) * (19 / 1000 * (1/2 * 15) + 503 / 1000) *
        (if DigestionType.ruminant = DigestionType.ruminant then 1
          else 93 / 100)) ∧
    get_per_forage_type DigestionType.hindgut ForageType.inedible (1/2) =
      Except.ok 0 ∧
    get_per_forage_type DigestionType.ruminant ForageType.grass 2 =
      Except.error (FaunaError.invalidArgument
        "Digestibility out of range") := by
  refine ⟨?_, ?_, ?_⟩
  · exact ((net_energy_content_default_formula DigestionType.ruminant
      (1/2)).1 (by norm_num) (by norm_num)).1
  · exact ((net_energy_content_default_formula DigestionType.hindgut
      (1/2)).1 (by norm_num) (by norm_num)).2
  · exact (net_energy_content_default_formula DigestionType.ruminant 2).2
      (by norm_num) ForageType.grass

/-- C10: `HerbivoreBase::get_forage_demands` on a dead herbivore returns the
zero forage mass for every demand argument and leaves the herbivore state —
including the per-day memo — unchanged. -/
theorem get_forage_demands_dead_returns_zero (demand_per_ind : ForageVec)
    (h : ForageDemandState) (hdead : h.dead = true) :
    get_forage_demands demand_per_ind h = (ForageVec.zero, h) := by
  rw [get_forage_demands, if_pos hdead]

/-- Witness for C10 at a concrete dead herbivore with an uninitialised memo
and a non-zero demand function. -/
theorem get_forage_demands_dead_returns_zero_witness :
    get_forage_demands (fun _ => 7)
      { dead := true, today := 5, ind_per_km2 := 2, memo_day := none } =
      (ForageVec.zero,
        { dead := true, today := 5, ind_per_km2 := 2, memo_day := none }) :=
  get_forage_demands_dead_returns_zero (fun _ => 7)
    { dead := true, today := 5, ind_per_km2 := 2, memo_day := none } rfl

/-- C8: the weighted average of `src/Fauna/average.cpp` is commutative
(unconditionally, errors included), and associative in the merge sense: for
non-negative weights with pairwise positive sums, averaging `(a,b)` first and
then merging with `c` under the combined weight equals averaging `(b,c)` first
and then merging with `a`. -/
theorem average_comm_assoc (a b c w_a w_b w_c : ℚ) :
    average a b w_a w_b = average b a w_b w_a ∧
    (0 ≤ w_a → 0 ≤ w_b → 0 ≤ w_c → 0 < w_a + w_b → 0 < w_b + w_c →
      0 < w_a + w_c →
      (average a b w_a w_b).bind (fun ab => average ab c (w_a + w_b) w_c) =
      (average b c w_b w_c).bind (fun bc => average a bc w_a (w_b + w_c))) := by
  constructor
  · unfold average
    rw [add_comm w_b w_a, add_comm (b * w_b) (a * w_a)]
    have hor : (w_b < 0 ∨ w_a < 0) = (w_a < 0 ∨ w_b < 0) := propext or_comm
    simp only [hor]
  · intro ha hb hc hab hbc _
    have hab' : ¬(w_a < 0 ∨ w_b < 0) := by
      push_neg
      exact ⟨ha, hb⟩
    have hbc' : ¬(w_b < 0 ∨ w_c < 0) := by
      push_neg
      exact ⟨hb, hc⟩
    have hab0 : w_a + w_b ≠ 0 := ne_of_gt hab
    have hbc0 : w_b + w_c ≠ 0 := ne_of_gt hbc
    have habc : 0 < w_a + w_b + w_c := by linarith
    have habc' : ¬(w_a + w_b < 0 ∨ w_c < 0) := by
      push_neg
      exact ⟨le_of_lt hab, hc⟩
    have habc'' : ¬(w_a < 0 ∨ w_b + w_c < 0) := by
      push_neg
      exact ⟨ha, le_of_lt hbc⟩
    have habc0 : w_a + w_b + w_c ≠ 0 := ne_of_gt habc
    have habc0' : w_a + (w_b + w_c) ≠ 0 := by
      rw [← add_assoc]
      exact habc0
    unfold average
    rw [if_neg hab', if_neg hab0, if_neg hbc', if_neg hbc0]
    simp only [Except.bind]
    rw [if_neg habc', if_neg habc0, if_neg habc'', if_neg habc0']
    congr 1
    field_simp
    ring

/-- Witness for C8 at concrete inputs: weights 1 and 3 for values 2 and 6,
merged with value 10 at weight 4. -/
theorem average_comm_assoc_witness :
    average 2 6 1 3 = average 6 2 3 1 ∧
    (average 2 6 1 3).bind (fun ab => average ab 10 (1 + 3) 4) =
    (average 6 10 3 4).bind (fun bc => average 2 bc 1 (3 + 4)) := by
  constructor
  · exact (average_comm_assoc 2 6 10 1 3 4).1
  · exact (average_comm_assoc 2 6 10 1 3 4).2 (by norm_num) (by norm_num)
      (by norm_num) (by norm_num) (by norm_num) (by norm_num)

/-- C6: the `Equally` forage distributor (modelled from §4.5 of the spec; the
copy in `src/framework/herbiv_framework.cpp` is an empty sketch) gives each
herbivore its full demand when the total demand D fits into the available mass
A and otherwise scales every demand by A/D; the allocations sum to
`min(A, D)`, never exceed the individual demands, and never exceed A in
total. -/
theorem distribute_forage_equally_preserves_sum (A : ℚ) (demands : List ℚ)
    (hA : 0 ≤ A) (hdem : ∀ d ∈ demands, 0 ≤ d) :
    (demands.sum ≤ A → distribute_forage_equally A demands = demands) ∧
    (A < demands.sum → distribute_forage_equally A demands =
      demands.map (fun d => d * (A / demands.sum))) ∧
    (distribute_forage_equally A demands).sum = min A demands.sum ∧
    List.Forall₂ (fun alloc dem => alloc ≤ dem)
      (distribute_forage_equally A demands) demands ∧
    (distribute_forage_equally A demands).sum ≤ A := by
  by_cases hcase : demands.sum ≤ A
  · have hdef : distribute_forage_equally A demands = demands := by
      simp only [distribute_forage_equally]
      rw [if_pos hcase]
    refine ⟨fun _ => hdef, fun hlt => absurd hcase (not_le.mpr hlt), ?_, ?_, ?_⟩
    · rw [hdef, min_eq_right hcase]
    · rw [hdef]
      exact List.forall₂_same.mpr fun x _ => le_refl x
    · rw [hdef]
      exact hcase
  · push_neg at hcase
    have hDpos : 0 < demands.sum := lt_of_le_of_lt hA hcase
    have hDne : demands.sum ≠ 0 := ne_of_gt hDpos
    have hdef : distribute_forage_equally A demands =
        demands.map (fun d => d * (A / demands.sum)) := by
      simp only [distribute_forage_equally]
      rw [if_neg (not_le.mpr hcase)]
    have hsum : (demands.map (fun d => d * (A / demands.sum))).sum = A := by
      rw [sum_map_mul_const, mul_comm, div_mul_cancel₀ A hDne]
    refine ⟨fun hle => absurd hle (not_le.mpr hcase), fun _ => hdef, ?_, ?_, ?_⟩
    · rw [hdef, hsum, min_eq_left (le_of_lt hcase)]
    · rw [hdef, List.forall₂_map_left_iff]
      refine List.forall₂_same.mpr fun d hd => ?_
      exact mul_le_of_le_one_right (hdem d hd)
        ((div_le_one hDpos).mpr (le_of_lt hcase))
    · rw [hdef, hsum]

/-- Witness for C6 at the spec's scarcity scenario S4: two demands of 100
against 60 available give 30 each, summing to `min 60 200`. -/
theorem distribute_forage_equally_preserves_sum_witness :
    distribute_forage_equally 60 [100, 100] = [30, 30] ∧
    (distribute_forage_equally 60 [100, 100]).sum =
      min 60 ([100, 100] : List ℚ).sum := by
  constructor
  · have h := (distribute_forage_equally_preserves_sum 60 [100, 100]
      (by norm_num) (by norm_num [List.forall_mem_cons])).2.1
      (by norm_num [List.sum_cons, List.sum_nil])
    rw [h]
    norm_num [List.map_cons, List.map_nil, List.sum_cons, List.sum_nil]
  · exact (distribute_forage_equally_preserves_sum 60 [100, 100]
      (by norm_num) (by norm_num [List.forall_mem_cons])).2.2.1

/-- C4 (code bug): the entry guard of `HerbivoreBase::eat` tests
`ind_per_km2 == 0.0 && kg_per_km2 == 0.0`, so a call with zero individuals but
a non-zero forage mass passes the guard without the promised
`std::logic_error` and instead trips the immediately following
`assert(get_ind_per_km2() != 0.0)` (in a release build: a division by zero);
only the call with zero individuals *and* zero forage throws the logic
error. -/
theorem eat_zero_density_guard_bug :
    eat_entry 0 (fun t => if t = ForageType.grass then 1 else 0) =
      Except.error FaunaError.assertionFailure ∧
    eat_entry 0 ForageVec.zero =
      Except.error (FaunaError.logicError
        "This herbivore has no individuals and cannot be fed.") := by
  constructor
  · have h1 : ¬((0 : ℚ) = 0 ∧ ForageVec.allEq
        (fun t => if t = ForageType.grass then 1 else 0) 0) := by
      rintro ⟨-, hall⟩
      have h := hall ForageType.grass
      norm_num at h
    have h2 : ¬((0 : ℚ) ≠ 0) := fun h => h rfl
    rw [eat_entry, if_neg h1, if_pos h2]
  · rw [eat_entry, if_pos ⟨rfl, fun _ => rfl⟩]

/-- C7 (code bug): `World::simulate_day` increments the shared counter
`days_since_last_establishment` once per simulation unit inside the loop over
`sim_units`.  With two simulation units and `herbivore_establish_interval = 2`
both units are (initially) established on day 1, and already on day 2 — one
day after its last establishment event — the first unit's
`establish_if_needed` flag is raised again, while the second unit's never
is. -/
theorem world_reestablishment_counter_bug :
    (World.simulate_day_establishment 2
      { days_since_last_establishment := 2,
        sim_units := [{ initial_establishment_done := false },
                      { initial_establishment_done := false }] }).2 =
      [true, true] ∧
    (World.simulate_day_establishment 2
      (World.simulate_day_establishment 2
        { days_since_last_establishment := 2,
          sim_units := [{ initial_establishment_done := false },
                        { initial_establishment_done := false }] }).1).2 =
      [true, false] := by
  decide

/-- C9: merging two mergeable cohorts (same HFT, sex and age) sums their
densities into the receiving cohort, zeroes the other cohort — conserving
total individual density — and combines the energy-budget state as a
density-weighted mean; cohorts differing in age, sex or HFT are rejected with
`std::invalid_argument` before any mutation (the embedding returns no new
state in that case, which models the unchanged objects). -/
theorem cohort_merge_conserves_density (c other : Cohort) :
    (c.age_days = other.age_days → c.sex = other.sex → c.hft = other.hft →
      0 ≤ c.ind_per_km2 → 0 ≤ other.ind_per_km2 →
      0 < c.ind_per_km2 + other.ind_per_km2 →
      HerbivoreCohort.merge c other = Except.ok
        ({ c with
            energy_budget :=
              { fat_mass := (c.energy_budget.fat_mass * c.ind_per_km2 +
                  other.energy_budget.fat_mass * other.ind_per_km2) /
                  (c.ind_per_km2 + other.ind_per_km2),
                max_fat_mass := (c.energy_budget.max_fat_mass * c.ind_per_km2 +
                  other.energy_budget.max_fat_mass * other.ind_per_km2) /
                  (c.ind_per_km2 + other.ind_per_km2),
                energy_needs := (c.energy_budget.energy_needs * c.ind_per_km2 +
                  other.energy_budget.energy_needs * other.ind_per_km2) /
                  (c.ind_per_km2 + other.ind_per_km2) },
            ind_per_km2 := c.ind_per_km2 + other.ind_per_km2 },
         { other with ind_per_km2 := 0 })) ∧
    ((c.age_days ≠ other.age_days ∨ c.sex ≠ other.sex ∨ c.hft ≠ other.hft) →
      ∃ msg, HerbivoreCohort.merge c other =
        Except.error (FaunaError.invalidArgument msg)) := by
  constructor
  · intro hage hsex hhft h1 h2 hpos
    have hw : ¬(c.ind_per_km2 < 0 ∨ other.ind_per_km2 < 0) := by
      push_neg
      exact ⟨h1, h2⟩
    have hs : ¬(c.ind_per_km2 + other.ind_per_km2 = 0) := ne_of_gt hpos
    rw [HerbivoreCohort.merge, if_neg (fun h => h hage),
      if_neg (fun h => h hsex), if_neg (fun h => h hhft)]
    simp only [EnergyBudget.merge, average, if_neg hw, if_neg hs, Except.bind,
      bind, Except.ok.injEq]
  · intro h
    by_cases hage : c.age_days ≠ other.age_days
    · exact ⟨_, by rw [HerbivoreCohort.merge, if_pos hage]⟩
    · by_cases hsex : c.sex ≠ other.sex
      · exact ⟨_, by rw [HerbivoreCohort.merge, if_neg hage, if_pos hsex]⟩
      · have hhft : c.hft ≠ other.hft := by tauto
        exact ⟨_, by rw [HerbivoreCohort.merge, if_neg hage, if_neg hsex,
          if_pos hhft]⟩

/-- Witness for C9 at the spec's merge-identity scenario S6: two equal cohorts
of densities 1 and 3 merge into density 4 with identical body condition, the
other cohort being emptied. -/
theorem cohort_merge_conserves_density_witness :
    HerbivoreCohort.merge
      (Cohort.mk 100 Sex.female 0 1 (EnergyBudget.mk 5 10 2))
      (Cohort.mk 100 Sex.female 0 3 (EnergyBudget.mk 5 10 2)) =
    Except.ok
      (Cohort.mk 100 Sex.female 0 4 (EnergyBudget.mk 5 10 2),
       Cohort.mk 100 Sex.female 0 0 (EnergyBudget.mk 5 10 2)) := by
  have h := (cohort_merge_conserves_density
    (Cohort.mk 100 Sex.female 0 1 (EnergyBudget.mk 5 10 2))
    (Cohort.mk 100 Sex.female 0 3 (EnergyBudget.mk 5 10 2))).1
    rfl rfl rfl (by norm_num) (by norm_num) (by norm_num)
  rw [h]
  norm_num

end Fauna
